import Mathlib

/-!
Shallow embedding of the apply/rollback orchestrator of certfix-cli
(src/cmd/certfix/apply.go), together with the data model of
src/pkg/models/models.go and the decoded-body conventions of
src/pkg/client/client.go.  Remote interaction is modelled by a transport
oracle mapping each (method, path, payload) call to either a decoded JSON
body or an error string; every function returns the list of transport
calls it issued, so ordering properties are statements about call traces.
-/

namespace Certfix

/-- Decoded JSON values, as produced by `client.request` (objects become
key/value lists, arrays become lists). -/
inductive JVal where
  | str (s : String) : JVal
  | bool (b : Bool) : JVal
  | num (n : Int) : JVal
  | arr (xs : List JVal) : JVal
  | obj (fields : List (String × JVal)) : JVal

/-- A decoded response body, as in the Go string-keyed map type. -/
abbrev Body := List (String × JVal)

/-- Map lookup on a body, modelling `response["k"]`. JSON objects have
unique keys, so first-match lookup is faithful. -/
def getField (b : Body) (k : String) : Option JVal :=
  match b with
  | [] => none
  | (k₀, v) :: rest => if k₀ = k then some v else getField rest k

/-- `response["k"].(string)`: the value if present and a string. -/
def getStr (b : Body) (k : String) : Option String :=
  match getField b k with
  | some (JVal.str s) => some s
  | _ => none

/-- `response["k"].(bool)`: the value if present and a boolean. -/
def getBool (b : Body) (k : String) : Option Bool :=
  match getField b k with
  | some (JVal.bool v) => some v
  | _ => none

/-- models.EventConfig. -/
structure EventConfig where
  name : String
  severity : String
  enabled : Bool

/-- models.PolicyConfig (cron_config is a string map, event_config holds
arbitrary JSON values). -/
structure PolicyConfig where
  name : String
  strategy : String
  enabled : Bool
  cronConfig : List (String × String)
  eventConfig : List (String × JVal)

/-- models.ServiceGroupConfig. -/
structure ServiceGroupConfig where
  name : String
  description : String
  enabled : Bool

/-- models.ServiceKeyConfig. -/
structure ServiceKeyConfig where
  name : String
  enabled : Bool
  expirationDays : Int

/-- models.ServiceRelationConfig. -/
structure ServiceRelationConfig where
  targetHash : String
  type : String

/-- models.ServiceConfig. -/
structure ServiceConfig where
  hash : String
  name : String
  active : Bool
  webhookURL : String
  groupName : String
  policyName : String
  keys : List ServiceKeyConfig
  relations : List ServiceRelationConfig

/-- models.CertfixConfig: the parsed YAML document. -/
structure CertfixConfig where
  events : List EventConfig
  policies : List PolicyConfig
  serviceGroups : List ServiceGroupConfig
  services : List ServiceConfig

/-- models.CreatedResource: one ledger entry (Type, Hash, ID). -/
structure CreatedResource where
  type : String
  hash : String
  id : String

/-- HTTP method of a transport call. -/
inductive Method where
  | get : Method
  | post : Method
  | delete : Method
deriving DecidableEq

/-- One transport call: method, path, and payload (empty for GET/DELETE,
whose Go counterparts pass a nil payload). -/
structure Call where
  method : Method
  path : String
  payload : Body

/-- The transport oracle: the response the remote end gives to each call.
`Except.error` covers both network failures and non-2xx statuses, which
`client.request` folds into a single error return. -/
abbrev Transport := Method → String → Body → Except String Body

/-- Outcome of one orchestrator step: the transport calls issued, the
ledger after the step, and the error if the step failed (`none` on
success). The Go ledger is a mutable slice passed by pointer; here it is
threaded explicitly. -/
structure StepOut where
  calls : List Call
  ledger : List CreatedResource
  err : Option String

/-- A single-quote character, used by the Go error formats. -/
def qc : String := String.mk [Char.ofNat 39]

/-- `s` wrapped in single quotes, as produced by the `%s` error formats. -/
def sq (s : String) : String := qc ++ s ++ qc

/-- Payload built by `createEvent`. -/
def eventPayload (e : EventConfig) : Body :=
  [("name", JVal.str e.name), ("severity", JVal.str e.severity),
   ("enabled", JVal.bool e.enabled)]

/-- apply.go `createEvent`: POST /events; on success append a ledger entry
of Type "event". -/
def createEvent (tr : Transport) (event : EventConfig)
    (createdResources : List CreatedResource) : StepOut :=
  match tr Method.post "/events" (eventPayload event) with
  | Except.error e =>
      ⟨[⟨Method.post, "/events", eventPayload event⟩], createdResources, some e⟩
  | Except.ok _ =>
      ⟨[⟨Method.post, "/events", eventPayload event⟩],
       createdResources ++ [⟨"event", event.name, ""⟩], none⟩

/-- Payload built by `createPolicy`: cron_config / event_config are added
only when non-empty. -/
def policyPayload (p : PolicyConfig) : Body :=
  [("name", JVal.str p.name), ("strategy", JVal.str p.strategy),
   ("enabled", JVal.bool p.enabled)]
  ++ (if p.cronConfig.length > 0 then
        [("cron_config", JVal.obj (p.cronConfig.map (fun kv => (kv.1, JVal.str kv.2))))]
      else [])
  ++ (if p.eventConfig.length > 0 then [("event_config", JVal.obj p.eventConfig)] else [])

/-- apply.go `createPolicy`: POST /politicas; on success append a ledger
entry of Type "policy". -/
def createPolicy (tr : Transport) (policy : PolicyConfig)
    (createdResources : List CreatedResource) : StepOut :=
  match tr Method.post "/politicas" (policyPayload policy) with
  | Except.error e =>
      ⟨[⟨Method.post, "/politicas", policyPayload policy⟩], createdResources, some e⟩
  | Except.ok _ =>
      ⟨[⟨Method.post, "/politicas", policyPayload policy⟩],
       createdResources ++ [⟨"policy", policy.name, ""⟩], none⟩

/-- Payload built by `createServiceGroup`. -/
def groupPayload (g : ServiceGroupConfig) : Body :=
  [("name", JVal.str g.name), ("description", JVal.str g.description),
   ("enabled", JVal.bool g.enabled)]

/-- apply.go `createServiceGroup`: POST /service-groups; on success append
a ledger entry of Type "service_group". -/
def createServiceGroup (tr : Transport) (group : ServiceGroupConfig)
    (createdResources : List CreatedResource) : StepOut :=
  match tr Method.post "/service-groups" (groupPayload group) with
  | Except.error e =>
      ⟨[⟨Method.post, "/service-groups", groupPayload group⟩], createdResources, some e⟩
  | Except.ok _ =>
      ⟨[⟨Method.post, "/service-groups", groupPayload group⟩],
       createdResources ++ [⟨"service_group", group.name, ""⟩], none⟩

/-- Base service payload of `createService` (webhook_url only when set). -/
def servicePayloadBase (s : ServiceConfig) : Body :=
  [("service_hash", JVal.str s.hash), ("service_name", JVal.str s.name),
   ("active", JVal.bool s.active)]
  ++ (if s.webhookURL ≠ "" then [("webhook_url", JVal.str s.webhookURL)] else [])

/-- The linear scan of `createService` over the decoded policy listing:
first array element that is an object whose "name" is the wanted string
AND carries a string "politica_id" (a name match without a string id does
not stop the scan, mirroring the missing `break` in that branch). -/
def findPolicyId (items : List JVal) (pname : String) : Option String :=
  match items with
  | [] => none
  | JVal.obj p :: rest =>
      match getStr p "name" with
      | some n =>
          if n = pname then
            match getStr p "politica_id" with
            | some pid => some pid
            | none => findPolicyId rest pname
          else findPolicyId rest pname
      | none => findPolicyId rest pname
  | _ :: rest => findPolicyId rest pname

/-- The `group_name` block of `createService`: when set, GET
/service-groups/name/<name>; a transport error is a hard error; on
success the payload gains "service_group_id" only if the response carries
it as a string. Returns the calls issued and the payload fields to add. -/
def resolveGroup (tr : Transport) (s : ServiceConfig) : List Call × Except String Body :=
  if s.groupName = "" then ([], Except.ok [])
  else
    match tr Method.get ("/service-groups/name/" ++ s.groupName) [] with
    | Except.error e =>
        ([⟨Method.get, "/service-groups/name/" ++ s.groupName, []⟩],
         Except.error ("failed to find service group " ++ sq s.groupName ++ ": " ++ e))
    | Except.ok response =>
        ([⟨Method.get, "/service-groups/name/" ++ s.groupName, []⟩],
         match getStr response "service_group_id" with
         | some groupID => Except.ok [("service_group_id", JVal.str groupID)]
         | none => Except.ok [])

/-- The `policy_name` block of `createService`: when set, GET /politicas;
a transport error is a hard error; on success scan the `_array_data`
wrapper (present when the listing decoded as a JSON array) for the
display name and add "politica_id" when found. -/
def resolvePolicy (tr : Transport) (s : ServiceConfig) : List Call × Except String Body :=
  if s.policyName = "" then ([], Except.ok [])
  else
    match tr Method.get "/politicas" [] with
    | Except.error e =>
        ([⟨Method.get, "/politicas", []⟩],
         Except.error ("failed to get políticas: " ++ e))
    | Except.ok response =>
        ([⟨Method.get, "/politicas", []⟩],
         Except.ok
           (match getBool response "_is_array", getField response "_array_data" with
            | some true, some (JVal.arr items) =>
                (match findPolicyId items s.policyName with
                 | some pid => [("politica_id", JVal.str pid)]
                 | none => [])
            | _, _ => []))

/-- apply.go `createService`: existence check by GET /services/<hash>
(a successful response means the service exists: skip or conflict per
`skipExisting`; ANY error means "does not exist" and creation proceeds),
then group/policy name resolution, then POST /services; on success append
a ledger entry of Type "service". -/
def createService (tr : Transport) (skipExisting : Bool) (service : ServiceConfig)
    (createdResources : List CreatedResource) : StepOut :=
  match tr Method.get ("/services/" ++ service.hash) [] with
  | Except.ok _ =>
      if skipExisting then
        ⟨[⟨Method.get, "/services/" ++ service.hash, []⟩], createdResources, none⟩
      else
        ⟨[⟨Method.get, "/services/" ++ service.hash, []⟩], createdResources,
         some "service already exists"⟩
  | Except.error _ =>
      match resolveGroup tr service with
      | (gCalls, Except.error e) =>
          ⟨⟨Method.get, "/services/" ++ service.hash, []⟩ :: gCalls, createdResources, some e⟩
      | (gCalls, Except.ok gFields) =>
          match resolvePolicy tr service with
          | (pCalls, Except.error e) =>
              ⟨⟨Method.get, "/services/" ++ service.hash, []⟩ :: (gCalls ++ pCalls),
               createdResources, some e⟩
          | (pCalls, Except.ok pFields) =>
              match tr Method.post "/services"
                  (servicePayloadBase service ++ gFields ++ pFields) with
              | Except.error e =>
                  ⟨⟨Method.get, "/services/" ++ service.hash, []⟩
                     :: (gCalls ++ pCalls
                          ++ [⟨Method.post, "/services",
                               servicePayloadBase service ++ gFields ++ pFields⟩]),
                   createdResources, some e⟩
              | Except.ok _ =>
                  ⟨⟨Method.get, "/services/" ++ service.hash, []⟩
                     :: (gCalls ++ pCalls
                          ++ [⟨Method.post, "/services",
                               servicePayloadBase service ++ gFields ++ pFields⟩]),
                   createdResources ++ [⟨"service", service.hash, ""⟩], none⟩

/-- Payload built by `createServiceKey` (expiration_days only when > 0). -/
def keyPayload (k : ServiceKeyConfig) : Body :=
  [("key_name", JVal.str k.name), ("enabled", JVal.bool k.enabled)]
  ++ (if k.expirationDays > 0 then [("expiration_days", JVal.num k.expirationDays)] else [])

/-- apply.go `createServiceKey`: POST /services/<hash>/keys; the ledger
entry records the owning service hash and the remote-issued key_id (empty
when the response lacks a string key_id). -/
def createServiceKey (tr : Transport) (serviceHash : String) (key : ServiceKeyConfig)
    (createdResources : List CreatedResource) : StepOut :=
  match tr Method.post ("/services/" ++ serviceHash ++ "/keys") (keyPayload key) with
  | Except.error e =>
      ⟨[⟨Method.post, "/services/" ++ serviceHash ++ "/keys", keyPayload key⟩],
       createdResources, some e⟩
  | Except.ok response =>
      ⟨[⟨Method.post, "/services/" ++ serviceHash ++ "/keys", keyPayload key⟩],
       createdResources
         ++ [⟨"key", serviceHash, (getStr response "key_id").getD ""⟩], none⟩

/-- Payload built by `createServiceRelation` (relation_type only when set). -/
def relationPayload (r : ServiceRelationConfig) : Body :=
  [("related_service_hash", JVal.str r.targetHash)]
  ++ (if r.type ≠ "" then [("relation_type", JVal.str r.type)] else [])

/-- apply.go `createServiceRelation`: POST /services/<hash>/matriz; the
ledger entry records source hash and target hash. -/
def createServiceRelation (tr : Transport) (sourceHash : String)
    (relation : ServiceRelationConfig)
    (createdResources : List CreatedResource) : StepOut :=
  match tr Method.post ("/services/" ++ sourceHash ++ "/matriz") (relationPayload relation) with
  | Except.error e =>
      ⟨[⟨Method.post, "/services/" ++ sourceHash ++ "/matriz", relationPayload relation⟩],
       createdResources, some e⟩
  | Except.ok _ =>
      ⟨[⟨Method.post, "/services/" ++ sourceHash ++ "/matriz", relationPayload relation⟩],
       createdResources ++ [⟨"relation", sourceHash, relation.targetHash⟩], none⟩

/-- One phase loop of `applyConfiguration`: run the step on each item in
order, wrapping a step failure in the phase error format and aborting
the phase there (remaining items untouched, ledger kept for rollback). -/
def runPhase {α : Type} (step : α → List CreatedResource → StepOut)
    (wrap : α → String → String) (items : List α)
    (led : List CreatedResource) : StepOut :=
  match items with
  | [] => ⟨[], led, none⟩
  | x :: rest =>
      match (step x led).err with
      | some e => ⟨(step x led).calls, (step x led).ledger, some (wrap x e)⟩
      | none =>
          ⟨(step x led).calls ++ (runPhase step wrap rest (step x led).ledger).calls,
           (runPhase step wrap rest (step x led).ledger).ledger,
           (runPhase step wrap rest (step x led).ledger).err⟩

/-- Sequencing of two phases: an error in the first short-circuits the
second. -/
def seqPhase (r : StepOut) (next : List CreatedResource → StepOut) : StepOut :=
  match r.err with
  | some _ => r
  | none =>
      ⟨r.calls ++ (next r.ledger).calls, (next r.ledger).ledger, (next r.ledger).err⟩

/-- Error format of phase 1: failed to create event, quoted name, cause. -/
def eventWrap (e : EventConfig) (msg : String) : String :=
  "failed to create event " ++ sq e.name ++ ": " ++ msg

/-- Error format of phase 2. -/
def policyWrap (p : PolicyConfig) (msg : String) : String :=
  "failed to create policy " ++ sq p.name ++ ": " ++ msg

/-- Error format of phase 3. -/
def groupWrap (g : ServiceGroupConfig) (msg : String) : String :=
  "failed to create service group " ++ sq g.name ++ ": " ++ msg

/-- Error format of phase 4 (keyed by the service hash). -/
def serviceWrap (s : ServiceConfig) (msg : String) : String :=
  "failed to create service " ++ sq s.hash ++ ": " ++ msg

/-- Error format of phase 5 (key name + owning service hash). -/
def keyWrap (pk : String × ServiceKeyConfig) (msg : String) : String :=
  "failed to create key " ++ sq pk.2.name ++ " for service " ++ sq pk.1 ++ ": " ++ msg

/-- Error format of phase 6 (source and target hashes). -/
def relationWrap (pr : String × ServiceRelationConfig) (msg : String) : String :=
  "failed to create relation from " ++ sq pr.1 ++ " to " ++ sq pr.2.targetHash ++ ": " ++ msg

/-- Iteration space of phase 5: for every service in document order, its
keys in declared order (the Go nested loops flattened; the outer
`len(Keys) > 0` guard only affects logging). -/
def keyItems (cfg : CertfixConfig) : List (String × ServiceKeyConfig) :=
  cfg.services.flatMap (fun s => s.keys.map (fun k => (s.hash, k)))

/-- Iteration space of phase 6, symmetric to `keyItems`. -/
def relationItems (cfg : CertfixConfig) : List (String × ServiceRelationConfig) :=
  cfg.services.flatMap (fun s => s.relations.map (fun r => (s.hash, r)))

/-- apply.go `applyConfiguration`: the six strictly ordered phases, each
aborting the whole run on its first failure. -/
def applyConfiguration (tr : Transport) (skipExisting : Bool) (cfg : CertfixConfig)
    (led : List CreatedResource) : StepOut :=
  seqPhase (runPhase (createEvent tr) eventWrap cfg.events led) (fun l₁ =>
  seqPhase (runPhase (createPolicy tr) policyWrap cfg.policies l₁) (fun l₂ =>
  seqPhase (runPhase (createServiceGroup tr) groupWrap cfg.serviceGroups l₂) (fun l₃ =>
  seqPhase (runPhase (createService tr skipExisting) serviceWrap cfg.services l₃) (fun l₄ =>
  seqPhase (runPhase (fun pk => createServiceKey tr pk.1 pk.2) keyWrap (keyItems cfg) l₄)
    (fun l₅ =>
  runPhase (fun pr => createServiceRelation tr pr.1 pr.2) relationWrap
    (relationItems cfg) l₅)))))

/-- The switch of `rollbackResources`: the kind-appropriate DELETE call of
one ledger entry — and `none` for a Type matching no case (the switch has
cases "relation", "key", "service", "service_group", "politica",
"evento"; an unmatched Type is silently passed over). -/
def deleteCallFor (r : CreatedResource) : Option Call :=
  match r.type with
  | "relation" => some ⟨Method.delete, "/services/" ++ r.hash ++ "/matriz/" ++ r.id, []⟩
  | "key" => some ⟨Method.delete, "/services/" ++ r.hash ++ "/keys/" ++ r.id, []⟩
  | "service" => some ⟨Method.delete, "/services/" ++ r.hash, []⟩
  | "service_group" => some ⟨Method.delete, "/service-groups/" ++ r.hash, []⟩
  | "politica" => some ⟨Method.delete, "/policy/" ++ r.hash, []⟩
  | "evento" => some ⟨Method.delete, "/eventos/" ++ r.hash, []⟩
  | _ => none

/-- The sweep body of `rollbackResources` over an already-reversed entry
list: issue the delete call of each entry; a failed delete is only logged (the
Nat counts the successful deletes, mirroring the ✓/⚠ log lines) and the
sweep continues. The function has no error channel: rollback never
raises. -/
def rollbackSweep (tr : Transport) (rs : List CreatedResource) : List Call × Nat :=
  match rs with
  | [] => ([], 0)
  | r :: rest =>
      let tail := rollbackSweep tr rest
      match deleteCallFor r with
      | none => tail
      | some c =>
          match tr c.method c.path c.payload with
          | Except.error _ => (c :: tail.1, tail.2)
          | Except.ok _ => (c :: tail.1, tail.2 + 1)

/-- apply.go `rollbackResources`: delete the ledger entries in reverse
order, best-effort. -/
def rollbackResources (tr : Transport) (resources : List CreatedResource) :
    List Call × Nat :=
  rollbackSweep tr resources.reverse

/-- Result of the `apply` command as seen by the caller. -/
inductive CmdResult where
  | dryRunOk (total : Nat) : CmdResult
  | ok (created : Nat) : CmdResult
  | err (msg : String) : CmdResult

/-- The RunE body of `applyCmd` after the document is parsed: the dry-run
branch returns before authentication with only the enumerated total; the
live branch gets a token, runs `applyConfiguration` on an empty ledger
and, on failure, runs rollback and returns the original forward-pass
error. The first component collects every transport call issued. -/
def applyCmd (tr : Transport) (authToken : Except String String)
    (dryRun skipExisting : Bool) (cfg : CertfixConfig) : List Call × CmdResult :=
  if dryRun then
    ([], CmdResult.dryRunOk
      (cfg.events.length + cfg.policies.length
        + cfg.serviceGroups.length + cfg.services.length))
  else
    match authToken with
    | Except.error e => ([], CmdResult.err ("authentication required: " ++ e))
    | Except.ok _ =>
        let r := applyConfiguration tr skipExisting cfg []
        match r.err with
        | some e => (r.calls ++ (rollbackResources tr r.ledger).1, CmdResult.err e)
        | none => (r.calls, CmdResult.ok r.ledger.length)

/-! Concrete transports and documents used to instantiate the theorems. -/

/-- A transport whose every call succeeds with an empty body. -/
def okTr : Transport := fun _ _ _ => Except.ok []

/-- A transport whose every call fails. -/
def failTr : Transport := fun _ _ _ => Except.error "boom"

/-- A document holding a single event. -/
def cfgE : CertfixConfig := ⟨[⟨"e1", "low", true⟩], [], [], []⟩

/-! Helper lemmas. -/

theorem rollbackSweep_calls (tr : Transport) (rs : List CreatedResource) :
    (rollbackSweep tr rs).1 = rs.filterMap deleteCallFor := by
  induction rs with
  | nil => rfl
  | cons r rest ih =>
      unfold rollbackSweep
      cases h : deleteCallFor r with
      | none => simp [h, List.filterMap_cons, ih]
      | some c =>
          cases h₂ : tr c.method c.path c.payload <;>
            simp [h, h₂, List.filterMap_cons, ih]

theorem getField_append_of_none {b₁ : Body} (b₂ : Body) {k : String}
    (h : getField b₁ k = none) :
    getField (b₁ ++ b₂) k = getField b₂ k := by
  induction b₁ with
  | nil => rfl
  | cons kv rest ih =>
      obtain ⟨k₀, v⟩ := kv
      by_cases hk : k₀ = k
      · simp [getField, hk] at h
      · simp only [List.cons_append, getField, hk, if_false, if_neg] at h ⊢
        exact ih h

/-! ## C1 -/

/-- C1: the claim that rollback issues a delete call for every ledger
entry of every kind fails on the code: `createEvent` and `createPolicy`
append entries of Type "event" and "policy", while the rollback switch
only matches "evento" and "politica" (the kinds documented in
models.CreatedResource), so a ledger holding an event and a policy entry
produces zero delete calls. -/
theorem c1_rollback_never_deletes_events_or_policies :
    (createEvent okTr ⟨"e1", "low", true⟩ []).ledger = [⟨"event", "e1", ""⟩] ∧
    (createPolicy okTr ⟨"p1", "cron", true, [], []⟩ []).ledger = [⟨"policy", "p1", ""⟩] ∧
    (rollbackResources okTr [⟨"event", "e1", ""⟩, ⟨"policy", "p1", ""⟩]).1 = [] :=
  ⟨rfl, rfl, rfl⟩

/-! ## C5 -/

/-- C5: with dry-run set, `applyCmd` issues zero transport calls, ignores
the authentication outcome entirely, and reports exactly
len(events)+len(policies)+len(service_groups)+len(services). -/
theorem c5_dry_run_no_calls (tr : Transport) (auth : Except String String)
    (skip : Bool) (cfg : CertfixConfig) :
    applyCmd tr auth true skip cfg =
      ([], CmdResult.dryRunOk (cfg.events.length + cfg.policies.length
        + cfg.serviceGroups.length + cfg.services.length)) := rfl

/-! ## C6 -/

/-- C6: when the existence GET of phase 4 succeeds (the service already
exists remotely), skipExisting = true makes `createService` a no-op
success — no error, no creation POST, no ledger append — while
skipExisting = false raises the conflict error that aborts the apply. -/
theorem c6_skip_existing_dichotomy (tr : Transport) (s : ServiceConfig)
    (led : List CreatedResource) (body : Body)
    (hex : tr Method.get ("/services/" ++ s.hash) [] = Except.ok body) :
    createService tr true s led =
      ⟨[⟨Method.get, "/services/" ++ s.hash, []⟩], led, none⟩ ∧
    createService tr false s led =
      ⟨[⟨Method.get, "/services/" ++ s.hash, []⟩], led,
       some "service already exists"⟩ := by
  refine ⟨?_, ?_⟩ <;> (unfold createService; rw [hex]; rfl)

/-- A service used to instantiate the phase-4 theorems. -/
def svc1 : ServiceConfig := ⟨"h1", "svc", true, "", "", "", [], []⟩

/-- Witness for C6 at a concrete transport on which the existence check
succeeds. -/
theorem c6_witness :
    createService okTr true svc1 [] =
      ⟨[⟨Method.get, "/services/" ++ svc1.hash, []⟩], [], none⟩ ∧
    createService okTr false svc1 [] =
      ⟨[⟨Method.get, "/services/" ++ svc1.hash, []⟩], [],
       some "service already exists"⟩ :=
  c6_skip_existing_dichotomy okTr svc1 [] [] rfl

/-! ## C4 -/

/-- C4: rollback is best-effort and cannot mask the forward error. The
delete calls issued by `rollbackResources` are exactly the reverse sweep
of the ledger for every transport — so a failing delete at any position
never prevents the remaining (earlier) entries from being attempted, and
the function has no error channel. Moreover, whenever the forward pass
fails with error e, the live `applyCmd` ultimately returns exactly e,
never a rollback delete failure. -/
theorem c4_rollback_best_effort :
    (∀ (tr : Transport) (led : List CreatedResource),
      (rollbackResources tr led).1 = led.reverse.filterMap deleteCallFor) ∧
    (∀ (tr : Transport) (tok : String) (skip : Bool) (cfg : CertfixConfig) (e : String),
      (applyConfiguration tr skip cfg []).err = some e →
      (applyCmd tr (Except.ok tok) false skip cfg).2 = CmdResult.err e) := by
  constructor
  · intro tr led
    exact rollbackSweep_calls tr led.reverse
  · intro tr tok skip cfg e h
    unfold applyCmd
    simp only [Bool.false_eq_true, if_false, h]

/-- Witness for C4: a concrete one-event document whose forward pass fails
on the event POST; the command returns the wrapped forward error. -/
theorem c4_witness :
    (applyCmd failTr (Except.ok "tok") false false cfgE).2 =
      CmdResult.err (eventWrap ⟨"e1", "low", true⟩ "boom") :=
  c4_rollback_best_effort.2 failTr "tok" false cfgE
    (eventWrap ⟨"e1", "low", true⟩ "boom") rfl

/-! ## C7 -/

theorem createEvent_success_ledger (tr : Transport) (e : EventConfig)
    (led : List CreatedResource) (h : (createEvent tr e led).err = none) :
    (createEvent tr e led).ledger = led ++ [⟨"event", e.name, ""⟩] := by
  cases htr : tr Method.post "/events" (eventPayload e) <;>
    simp [createEvent, htr] at h ⊢

theorem createPolicy_success_ledger (tr : Transport) (p : PolicyConfig)
    (led : List CreatedResource) (h : (createPolicy tr p led).err = none) :
    (createPolicy tr p led).ledger = led ++ [⟨"policy", p.name, ""⟩] := by
  cases htr : tr Method.post "/politicas" (policyPayload p) <;>
    simp [createPolicy, htr] at h ⊢

theorem createServiceGroup_success_ledger (tr : Transport) (g : ServiceGroupConfig)
    (led : List CreatedResource) (h : (createServiceGroup tr g led).err = none) :
    (createServiceGroup tr g led).ledger = led ++ [⟨"service_group", g.name, ""⟩] := by
  cases htr : tr Method.post "/service-groups" (groupPayload g) <;>
    simp [createServiceGroup, htr] at h ⊢

theorem createServiceKey_success_ledger (tr : Transport) (sh : String)
    (k : ServiceKeyConfig) (led : List CreatedResource)
    (h : (createServiceKey tr sh k led).err = none) :
    ∃ kid, (createServiceKey tr sh k led).ledger = led ++ [⟨"key", sh, kid⟩] := by
  cases htr : tr Method.post ("/services/" ++ sh ++ "/keys") (keyPayload k) with
  | error msg => simp [createServiceKey, htr] at h
  | ok resp =>
      exact ⟨(getStr resp "key_id").getD "", by simp [createServiceKey, htr]⟩

theorem createServiceRelation_success_ledger (tr : Transport) (sh : String)
    (r : ServiceRelationConfig) (led : List CreatedResource)
    (h : (createServiceRelation tr sh r led).err = none) :
    (createServiceRelation tr sh r led).ledger = led ++ [⟨"relation", sh, r.targetHash⟩] := by
  cases htr : tr Method.post ("/services/" ++ sh ++ "/matriz") (relationPayload r) <;>
    simp [createServiceRelation, htr] at h ⊢

theorem createService_success_ledger (tr : Transport) (skip : Bool)
    (s : ServiceConfig) (led : List CreatedResource)
    (h : (createService tr skip s led).err = none) :
    (createService tr skip s led).ledger = led ++ [⟨"service", s.hash, ""⟩] ∨
    ((createService tr skip s led).calls = [⟨Method.get, "/services/" ++ s.hash, []⟩] ∧
     (createService tr skip s led).ledger = led) := by
  cases htr : tr Method.get ("/services/" ++ s.hash) [] with
  | ok b =>
      cases skip with
      | false => simp [createService, htr] at h
      | true => right; simp [createService, htr]
  | error msg =>
      cases hg : resolveGroup tr s with
      | mk gc g₂ =>
          cases g₂ with
          | error e₂ => simp [createService, htr, hg] at h
          | ok gF =>
              cases hp : resolvePolicy tr s with
              | mk pc p₂ =>
                  cases p₂ with
                  | error e₂ => simp [createService, htr, hg, hp] at h
                  | ok pF =>
                      cases hpost : tr Method.post "/services"
                          (servicePayloadBase s ++ gF ++ pF) with
                      | error e₂ =>
                          rw [List.append_assoc] at hpost
                          simp [createService, htr, hg, hp, hpost] at h
                      | ok b₂ =>
                          rw [List.append_assoc] at hpost
                          left; simp [createService, htr, hg, hp, hpost]

/-- A step whose output ledger always extends its input ledger. -/
def AppendsOnly {α : Type} (step : α → List CreatedResource → StepOut) : Prop :=
  ∀ x led, ∃ ext, (step x led).ledger = led ++ ext

theorem createEvent_appendsOnly (tr : Transport) : AppendsOnly (createEvent tr) := by
  intro e led
  unfold createEvent
  cases tr Method.post "/events" (eventPayload e)
  · exact ⟨[], by simp⟩
  · exact ⟨[⟨"event", e.name, ""⟩], rfl⟩

theorem createPolicy_appendsOnly (tr : Transport) : AppendsOnly (createPolicy tr) := by
  intro p led
  unfold createPolicy
  cases tr Method.post "/politicas" (policyPayload p)
  · exact ⟨[], by simp⟩
  · exact ⟨[⟨"policy", p.name, ""⟩], rfl⟩

theorem createServiceGroup_appendsOnly (tr : Transport) :
    AppendsOnly (createServiceGroup tr) := by
  intro g led
  unfold createServiceGroup
  cases tr Method.post "/service-groups" (groupPayload g)
  · exact ⟨[], by simp⟩
  · exact ⟨[⟨"service_group", g.name, ""⟩], rfl⟩

theorem createService_appendsOnly (tr : Transport) (skip : Bool) :
    AppendsOnly (createService tr skip) := by
  intro s led
  unfold createService
  split
  · split
    · exact ⟨[], by simp⟩
    · exact ⟨[], by simp⟩
  · split
    · exact ⟨[], by simp⟩
    · split
      · exact ⟨[], by simp⟩
      · split
        · exact ⟨[], by simp⟩
        · exact ⟨[⟨"service", s.hash, ""⟩], rfl⟩

theorem createServiceKey_appendsOnly (tr : Transport) :
    AppendsOnly (fun (pk : String × ServiceKeyConfig) => createServiceKey tr pk.1 pk.2) := by
  intro pk led
  cases htr : tr Method.post ("/services/" ++ pk.1 ++ "/keys") (keyPayload pk.2) with
  | error msg => exact ⟨[], by simp [createServiceKey, htr]⟩
  | ok resp =>
      exact ⟨[⟨"key", pk.1, (getStr resp "key_id").getD ""⟩],
             by simp [createServiceKey, htr]⟩

theorem createServiceRelation_appendsOnly (tr : Transport) :
    AppendsOnly (fun (pr : String × ServiceRelationConfig) =>
      createServiceRelation tr pr.1 pr.2) := by
  intro pr led
  cases htr : tr Method.post ("/services/" ++ pr.1 ++ "/matriz") (relationPayload pr.2) with
  | error msg => exact ⟨[], by simp [createServiceRelation, htr]⟩
  | ok resp =>
      exact ⟨[⟨"relation", pr.1, pr.2.targetHash⟩], by simp [createServiceRelation, htr]⟩

theorem runPhase_appendsOnly {α : Type} (step : α → List CreatedResource → StepOut)
    (wrap : α → String → String) (hstep : AppendsOnly step) (items : List α)
    (led : List CreatedResource) :
    ∃ ext, (runPhase step wrap items led).ledger = led ++ ext := by
  induction items generalizing led with
  | nil => exact ⟨[], by simp [runPhase]⟩
  | cons x rest ih =>
      obtain ⟨e₁, he₁⟩ := hstep x led
      unfold runPhase
      cases herr : (step x led).err with
      | some msg => exact ⟨e₁, by simp [herr, he₁]⟩
      | none =>
          obtain ⟨e₂, he₂⟩ := ih ((step x led).ledger)
          rw [he₁] at he₂
          exact ⟨e₁ ++ e₂, by simp [herr, he₁, he₂, List.append_assoc]⟩

theorem seqPhase_appendsOnly (r : StepOut) (next : List CreatedResource → StepOut)
    (led : List CreatedResource) (h₁ : ∃ ext, r.ledger = led ++ ext)
    (h₂ : ∀ l, ∃ ext, (next l).ledger = l ++ ext) :
    ∃ ext, (seqPhase r next).ledger = led ++ ext := by
  obtain ⟨e₁, he₁⟩ := h₁
  unfold seqPhase
  cases herr : r.err with
  | some msg => exact ⟨e₁, by simp [he₁]⟩
  | none =>
      obtain ⟨e₂, he₂⟩ := h₂ r.ledger
      rw [he₁] at he₂
      exact ⟨e₁ ++ e₂, by simp [herr, he₁, he₂, List.append_assoc]⟩

theorem applyConfiguration_ledger_ext (tr : Transport) (skip : Bool)
    (cfg : CertfixConfig) (led : List CreatedResource) :
    ∃ ext, (applyConfiguration tr skip cfg led).ledger = led ++ ext := by
  unfold applyConfiguration
  refine seqPhase_appendsOnly _ _ _
    (runPhase_appendsOnly _ _ (createEvent_appendsOnly tr) _ _) (fun l₁ => ?_)
  refine seqPhase_appendsOnly _ _ _
    (runPhase_appendsOnly _ _ (createPolicy_appendsOnly tr) _ _) (fun l₂ => ?_)
  refine seqPhase_appendsOnly _ _ _
    (runPhase_appendsOnly _ _ (createServiceGroup_appendsOnly tr) _ _) (fun l₃ => ?_)
  refine seqPhase_appendsOnly _ _ _
    (runPhase_appendsOnly _ _ (createService_appendsOnly tr skip) _ _) (fun l₄ => ?_)
  refine seqPhase_appendsOnly _ _ _
    (runPhase_appendsOnly _ _ (createServiceKey_appendsOnly tr) _ _) (fun l₅ => ?_)
  exact runPhase_appendsOnly _ _ (createServiceRelation_appendsOnly tr) _ _

/-- C7: every successful creation step appends exactly one ledger entry to
the ledger it was given (for phase 4, the only other successful outcome is
the skip path, recognisable by its lone existence-check call, which
appends nothing), and the forward pass only ever extends the ledger — it
never removes or reorders entries. -/
theorem c7_ledger_append_discipline :
    (∀ (tr : Transport) (e : EventConfig) (led : List CreatedResource),
      (createEvent tr e led).err = none →
      (createEvent tr e led).ledger = led ++ [⟨"event", e.name, ""⟩]) ∧
    (∀ (tr : Transport) (p : PolicyConfig) (led : List CreatedResource),
      (createPolicy tr p led).err = none →
      (createPolicy tr p led).ledger = led ++ [⟨"policy", p.name, ""⟩]) ∧
    (∀ (tr : Transport) (g : ServiceGroupConfig) (led : List CreatedResource),
      (createServiceGroup tr g led).err = none →
      (createServiceGroup tr g led).ledger = led ++ [⟨"service_group", g.name, ""⟩]) ∧
    (∀ (tr : Transport) (skip : Bool) (s : ServiceConfig) (led : List CreatedResource),
      (createService tr skip s led).err = none →
      ((createService tr skip s led).ledger = led ++ [⟨"service", s.hash, ""⟩] ∨
       ((createService tr skip s led).calls = [⟨Method.get, "/services/" ++ s.hash, []⟩] ∧
        (createService tr skip s led).ledger = led))) ∧
    (∀ (tr : Transport) (sh : String) (k : ServiceKeyConfig) (led : List CreatedResource),
      (createServiceKey tr sh k led).err = none →
      ∃ kid, (createServiceKey tr sh k led).ledger = led ++ [⟨"key", sh, kid⟩]) ∧
    (∀ (tr : Transport) (sh : String) (r : ServiceRelationConfig)
        (led : List CreatedResource),
      (createServiceRelation tr sh r led).err = none →
      (createServiceRelation tr sh r led).ledger = led ++ [⟨"relation", sh, r.targetHash⟩]) ∧
    (∀ (tr : Transport) (skip : Bool) (cfg : CertfixConfig) (led : List CreatedResource),
      ∃ ext, (applyConfiguration tr skip cfg led).ledger = led ++ ext) :=
  ⟨createEvent_success_ledger, createPolicy_success_ledger,
   createServiceGroup_success_ledger, createService_success_ledger,
   createServiceKey_success_ledger, createServiceRelation_success_ledger,
   applyConfiguration_ledger_ext⟩

/-- Witness for C7: the event conjunct at a concrete transport on which
the creation POST succeeds. -/
theorem c7_witness :
    (createEvent okTr ⟨"e1", "low", true⟩ []).ledger = [] ++ [⟨"event", "e1", ""⟩] :=
  c7_ledger_append_discipline.1 okTr ⟨"e1", "low", true⟩ [] rfl

/-! ## C3 -/

/-- A step whose issued calls do not depend on the ledger it was given
(true of all six creation steps: the ledger is only appended to). -/
def CallsBlind {α : Type} (step : α → List CreatedResource → StepOut) : Prop :=
  ∀ x led, (step x led).calls = (step x []).calls

theorem createEvent_callsBlind (tr : Transport) : CallsBlind (createEvent tr) := by
  intro e led
  cases htr : tr Method.post "/events" (eventPayload e) <;> simp [createEvent, htr]

theorem createPolicy_callsBlind (tr : Transport) : CallsBlind (createPolicy tr) := by
  intro p led
  cases htr : tr Method.post "/politicas" (policyPayload p) <;> simp [createPolicy, htr]

theorem createServiceGroup_callsBlind (tr : Transport) :
    CallsBlind (createServiceGroup tr) := by
  intro g led
  cases htr : tr Method.post "/service-groups" (groupPayload g) <;>
    simp [createServiceGroup, htr]

theorem createService_callsBlind (tr : Transport) (skip : Bool) :
    CallsBlind (createService tr skip) := by
  intro s led
  cases htr : tr Method.get ("/services/" ++ s.hash) [] with
  | ok b => cases skip <;> simp [createService, htr]
  | error msg =>
      cases hg : resolveGroup tr s with
      | mk gc g₂ =>
          cases g₂ with
          | error e₂ => simp [createService, htr, hg]
          | ok gF =>
              cases hp : resolvePolicy tr s with
              | mk pc p₂ =>
                  cases p₂ with
                  | error e₂ => simp [createService, htr, hg, hp]
                  | ok pF =>
                      cases hpost : tr Method.post "/services"
                          (servicePayloadBase s ++ gF ++ pF) <;>
                        (rw [List.append_assoc] at hpost;
                         simp [createService, htr, hg, hp, hpost])

theorem createServiceKey_callsBlind (tr : Transport) :
    CallsBlind (fun (pk : String × ServiceKeyConfig) => createServiceKey tr pk.1 pk.2) := by
  intro pk led
  cases htr : tr Method.post ("/services/" ++ pk.1 ++ "/keys") (keyPayload pk.2) <;>
    simp [createServiceKey, htr]

theorem createServiceRelation_callsBlind (tr : Transport) :
    CallsBlind (fun (pr : String × ServiceRelationConfig) =>
      createServiceRelation tr pr.1 pr.2) := by
  intro pr led
  cases htr : tr Method.post ("/services/" ++ pr.1 ++ "/matriz") (relationPayload pr.2) <;>
    simp [createServiceRelation, htr]

theorem runPhase_calls_of_success {α : Type} (step : α → List CreatedResource → StepOut)
    (wrap : α → String → String) (hblind : CallsBlind step) (items : List α)
    (led : List CreatedResource) (h : (runPhase step wrap items led).err = none) :
    (runPhase step wrap items led).calls = items.flatMap (fun x => (step x []).calls) := by
  induction items generalizing led with
  | nil => simp [runPhase]
  | cons x rest ih =>
      cases herr : (step x led).err with
      | some msg =>
          exfalso
          unfold runPhase at h
          simp [herr] at h
      | none =>
          unfold runPhase at h ⊢
          simp only [herr] at h ⊢
          rw [hblind x led, ih _ h]
          simp [List.flatMap_cons]

theorem seqPhase_success (r : StepOut) (next : List CreatedResource → StepOut)
    (h : (seqPhase r next).err = none) :
    r.err = none ∧ (next r.ledger).err = none ∧
    (seqPhase r next).calls = r.calls ++ (next r.ledger).calls := by
  cases herr : r.err with
  | some msg =>
      exfalso
      unfold seqPhase at h
      simp [herr] at h
  | none =>
      unfold seqPhase
      simp only [herr]
      unfold seqPhase at h
      simp only [herr] at h
      exact ⟨trivial, h, trivial⟩

theorem flatMap_pairs {β : Type} (services : List ServiceConfig)
    (sel : ServiceConfig → List β) (f : String × β → List Call) :
    (services.flatMap (fun s => (sel s).map (fun b => (s.hash, b)))).flatMap f =
      services.flatMap (fun s => (sel s).flatMap (fun b => f (s.hash, b))) := by
  induction services with
  | nil => rfl
  | cons s rest ih =>
      simp only [List.flatMap_cons, List.flatMap_append, ih, List.flatMap_map]

/-- C3: on any successful apply, the full transport-call trace groups
strictly into the six phases — events, policies, service groups, services,
keys, relations — and within each phase the calls are the document-order
concatenation of the per-item call blocks (keys and relations iterate
services in document order and their nested lists in declared order). -/
theorem c3_phase_grouping (tr : Transport) (skip : Bool) (cfg : CertfixConfig)
    (led : List CreatedResource)
    (h : (applyConfiguration tr skip cfg led).err = none) :
    (applyConfiguration tr skip cfg led).calls =
      cfg.events.flatMap (fun e => (createEvent tr e []).calls)
      ++ cfg.policies.flatMap (fun p => (createPolicy tr p []).calls)
      ++ cfg.serviceGroups.flatMap (fun g => (createServiceGroup tr g []).calls)
      ++ cfg.services.flatMap (fun s => (createService tr skip s []).calls)
      ++ cfg.services.flatMap (fun s => s.keys.flatMap
           (fun k => (createServiceKey tr s.hash k []).calls))
      ++ cfg.services.flatMap (fun s => s.relations.flatMap
           (fun r => (createServiceRelation tr s.hash r []).calls)) := by
  unfold applyConfiguration at h ⊢
  obtain ⟨h₁, h₂, hc₁⟩ := seqPhase_success _ _ h
  obtain ⟨h₃, h₄, hc₂⟩ := seqPhase_success _ _ h₂
  obtain ⟨h₅, h₆, hc₃⟩ := seqPhase_success _ _ h₄
  obtain ⟨h₇, h₈, hc₄⟩ := seqPhase_success _ _ h₆
  obtain ⟨h₉, h₁₀, hc₅⟩ := seqPhase_success _ _ h₈
  rw [hc₁, hc₂, hc₃, hc₄, hc₅]
  rw [runPhase_calls_of_success _ _ (createEvent_callsBlind tr) _ _ h₁]
  rw [runPhase_calls_of_success _ _ (createPolicy_callsBlind tr) _ _ h₃]
  rw [runPhase_calls_of_success _ _ (createServiceGroup_callsBlind tr) _ _ h₅]
  rw [runPhase_calls_of_success _ _ (createService_callsBlind tr skip) _ _ h₇]
  rw [runPhase_calls_of_success _ _ (createServiceKey_callsBlind tr) _ _ h₉]
  rw [runPhase_calls_of_success _ _ (createServiceRelation_callsBlind tr) _ _ h₁₀]
  rw [show (keyItems cfg).flatMap
        (fun pk => (createServiceKey tr pk.1 pk.2 []).calls) =
      cfg.services.flatMap (fun s => s.keys.flatMap
        (fun k => (createServiceKey tr s.hash k []).calls)) from
    flatMap_pairs cfg.services (fun s => s.keys) _]
  rw [show (relationItems cfg).flatMap
        (fun pr => (createServiceRelation tr pr.1 pr.2 []).calls) =
      cfg.services.flatMap (fun s => s.relations.flatMap
        (fun r => (createServiceRelation tr s.hash r []).calls)) from
    flatMap_pairs cfg.services (fun s => s.relations) _]
  simp [List.append_assoc]

/-- A document exercising all six phases, used to instantiate C3. -/
def cfgW : CertfixConfig :=
  ⟨[⟨"e1", "low", true⟩], [⟨"p1", "cron", true, [], []⟩],
   [⟨"g1", "", true⟩],
   [⟨"h1", "svc", true, "", "", "", [⟨"k1", true, 0⟩], [⟨"h2", ""⟩]⟩]⟩

/-- Witness for C3: a successful apply of `cfgW` (the pre-existing service
is skipped) produces the six-phase document-order trace. -/
theorem c3_witness :
    (applyConfiguration okTr true cfgW []).calls =
      cfgW.events.flatMap (fun e => (createEvent okTr e []).calls)
      ++ cfgW.policies.flatMap (fun p => (createPolicy okTr p []).calls)
      ++ cfgW.serviceGroups.flatMap (fun g => (createServiceGroup okTr g []).calls)
      ++ cfgW.services.flatMap (fun s => (createService okTr true s []).calls)
      ++ cfgW.services.flatMap (fun s => s.keys.flatMap
           (fun k => (createServiceKey okTr s.hash k []).calls))
      ++ cfgW.services.flatMap (fun s => s.relations.flatMap
           (fun r => (createServiceRelation okTr s.hash r []).calls)) :=
  c3_phase_grouping okTr true cfgW [] rfl

/-! Shape lemmas for the two resolution blocks and the base payload. -/

theorem resolveGroup_ok_shape (tr : Transport) (s : ServiceConfig) (gc : List Call)
    (gF : Body) (h : resolveGroup tr s = (gc, Except.ok gF)) :
    gF = [] ∨ ∃ gid, gF = [("service_group_id", JVal.str gid)] := by
  unfold resolveGroup at h
  split at h
  · simp only [Prod.mk.injEq, Except.ok.injEq] at h
    exact Or.inl h.2.symm
  · split at h
    · simp at h
    · split at h
      · next gid hgid =>
          simp only [Prod.mk.injEq, Except.ok.injEq] at h
          exact Or.inr ⟨gid, h.2.symm⟩
      · simp only [Prod.mk.injEq, Except.ok.injEq] at h
        exact Or.inl h.2.symm

theorem resolvePolicy_ok_shape (tr : Transport) (s : ServiceConfig) (pc : List Call)
    (pF : Body) (h : resolvePolicy tr s = (pc, Except.ok pF)) :
    pF = [] ∨ ∃ pid, pF = [("politica_id", JVal.str pid)] := by
  unfold resolvePolicy at h
  split at h
  · simp only [Prod.mk.injEq, Except.ok.injEq] at h
    exact Or.inl h.2.symm
  · split at h
    · simp at h
    · split at h
      · split at h
        · next pid hpid =>
            simp only [Prod.mk.injEq, Except.ok.injEq] at h
            exact Or.inr ⟨pid, h.2.symm⟩
        · simp only [Prod.mk.injEq, Except.ok.injEq] at h
          exact Or.inl h.2.symm
      · simp only [Prod.mk.injEq, Except.ok.injEq] at h
        exact Or.inl h.2.symm

theorem resolveGroup_error_calls (tr : Transport) (s : ServiceConfig) (gc : List Call)
    (msg : String) (h : resolveGroup tr s = (gc, Except.error msg)) :
    gc = [⟨Method.get, "/service-groups/name/" ++ s.groupName, []⟩] := by
  unfold resolveGroup at h
  split at h
  · simp at h
  · split at h
    · simp only [Prod.mk.injEq] at h
      exact h.1.symm
    · split at h <;> simp at h

theorem resolvePolicy_error_calls (tr : Transport) (s : ServiceConfig) (pc : List Call)
    (msg : String) (h : resolvePolicy tr s = (pc, Except.error msg)) :
    pc = [⟨Method.get, "/politicas", []⟩] := by
  unfold resolvePolicy at h
  split at h
  · simp at h
  · split at h
    · simp only [Prod.mk.injEq] at h
      exact h.1.symm
    · simp at h

theorem servicePayloadBase_no_group_id (s : ServiceConfig) :
    getField (servicePayloadBase s) "service_group_id" = none := by
  unfold servicePayloadBase
  split <;> rfl

theorem servicePayloadBase_no_group_name (s : ServiceConfig) :
    getField (servicePayloadBase s) "group_name" = none := by
  unfold servicePayloadBase
  split <;> rfl

theorem servicePayloadBase_no_politica_id (s : ServiceConfig) :
    getField (servicePayloadBase s) "politica_id" = none := by
  unfold servicePayloadBase
  split <;> rfl

/-! ## C2 -/

/-- The decoded policy listing used in the C2 scenario: a single policy
named "other". -/
def c2listing : Body :=
  [("_is_array", JVal.bool true),
   ("_array_data", JVal.arr
     [JVal.obj [("name", JVal.str "other"), ("politica_id", JVal.str "pid-1")]])]

/-- A transport on which service sB does not exist, the policy listing is
`c2listing`, and every other call succeeds. -/
def c2tr : Transport := fun _ p _ =>
  if p = "/services/sB" then Except.error "status 404"
  else if p = "/politicas" then Except.ok c2listing
  else Except.ok []

/-- A service whose policy_name matches no policy in the listing. -/
def svcB : ServiceConfig := ⟨"sB", "service-b", true, "", "", "missing-policy", [], []⟩

/-- C2 counterexample: the claim says a policy_name that matches no policy
must make service creation fail with a reference-not-found error; on
`c2tr` the code instead succeeds, POSTing a payload without politica_id —
the unresolved reference is silently skipped. -/
theorem c2_counterexample :
    (createService c2tr false svcB []).err = none ∧
    (createService c2tr false svcB []).calls =
      [⟨Method.get, "/services/sB", []⟩, ⟨Method.get, "/politicas", []⟩,
       ⟨Method.post, "/services", servicePayloadBase svcB⟩] ∧
    getField (servicePayloadBase svcB) "politica_id" = none :=
  ⟨rfl, rfl, rfl⟩

/-- C2 (amended): when policy_name is set but matches no entry of the
(array-shaped) policy listing, `createService` raises no error at all:
the reference is silently dropped, the creation POST is still issued, and
its payload carries no politica_id field. -/
theorem c2_policy_miss_silently_dropped (tr : Transport) (s : ServiceConfig)
    (led : List CreatedResource) (e : String) (resp : Body) (items : List JVal)
    (gc : List Call) (gF : Body) (body₂ : Body)
    (hpn : s.policyName ≠ "")
    (hex : tr Method.get ("/services/" ++ s.hash) [] = Except.error e)
    (hg : resolveGroup tr s = (gc, Except.ok gF))
    (hlist : tr Method.get "/politicas" [] = Except.ok resp)
    (hisarr : getBool resp "_is_array" = some true)
    (harr : getField resp "_array_data" = some (JVal.arr items))
    (hmiss : findPolicyId items s.policyName = none)
    (hpost : tr Method.post "/services" (servicePayloadBase s ++ gF) = Except.ok body₂) :
    resolvePolicy tr s = ([⟨Method.get, "/politicas", []⟩], Except.ok []) ∧
    (createService tr false s led).err = none ∧
    getField (servicePayloadBase s ++ gF) "politica_id" = none := by
  have hrp : resolvePolicy tr s = ([⟨Method.get, "/politicas", []⟩], Except.ok []) := by
    unfold resolvePolicy
    rw [if_neg hpn, hlist]
    simp only [hisarr, harr, hmiss]
  refine ⟨hrp, ?_, ?_⟩
  · have hpay : servicePayloadBase s ++ gF ++ [] = servicePayloadBase s ++ gF :=
      List.append_nil _
    simp only [createService, hex, hg, hrp, hpay, hpost]
  · rcases resolveGroup_ok_shape tr s gc gF hg with hF | ⟨gid, hF⟩ <;>
      (subst hF;
       rw [getField_append_of_none _ (servicePayloadBase_no_politica_id s)]) <;> rfl

/-- Witness for the amended C2 at the concrete transport `c2tr`. -/
theorem c2_amended_witness :
    resolvePolicy c2tr svcB = ([⟨Method.get, "/politicas", []⟩], Except.ok []) ∧
    (createService c2tr false svcB []).err = none ∧
    getField (servicePayloadBase svcB ++ []) "politica_id" = none :=
  c2_policy_miss_silently_dropped c2tr svcB [] "status 404" c2listing
    [JVal.obj [("name", JVal.str "other"), ("politica_id", JVal.str "pid-1")]]
    [] [] [] (by decide) rfl rfl rfl rfl rfl rfl rfl

/-! ## C8 -/

/-- C8: for a service whose group_name resolves (the lookup GET succeeds
and the response carries a string service_group_id), the creation POST is
the last transport call and its payload carries the remote-issued ID
under service_group_id; no name-based group field appears in the payload
at all. -/
theorem c8_group_id_substitution (tr : Transport) (skip : Bool) (s : ServiceConfig)
    (led : List CreatedResource) (e : String) (body : Body) (gid : String)
    (pc : List Call) (pF : Body)
    (hne : s.groupName ≠ "")
    (hex : tr Method.get ("/services/" ++ s.hash) [] = Except.error e)
    (hg : tr Method.get ("/service-groups/name/" ++ s.groupName) [] = Except.ok body)
    (hid : getStr body "service_group_id" = some gid)
    (hp : resolvePolicy tr s = (pc, Except.ok pF)) :
    (createService tr skip s led).calls =
      (⟨Method.get, "/services/" ++ s.hash, []⟩
         :: ([⟨Method.get, "/service-groups/name/" ++ s.groupName, []⟩] ++ pc))
        ++ [⟨Method.post, "/services",
             servicePayloadBase s ++ [("service_group_id", JVal.str gid)] ++ pF⟩] ∧
    getField (servicePayloadBase s ++ [("service_group_id", JVal.str gid)] ++ pF)
      "service_group_id" = some (JVal.str gid) ∧
    getField (servicePayloadBase s ++ [("service_group_id", JVal.str gid)] ++ pF)
      "group_name" = none := by
  have hrg : resolveGroup tr s =
      ([⟨Method.get, "/service-groups/name/" ++ s.groupName, []⟩],
       Except.ok [("service_group_id", JVal.str gid)]) := by
    unfold resolveGroup
    rw [if_neg hne, hg]
    simp only [hid]
  refine ⟨?_, ?_, ?_⟩
  · cases hpost : tr Method.post "/services"
        (servicePayloadBase s ++ ("service_group_id", JVal.str gid) :: pF) <;>
      simp [createService, hex, hrg, hp, hpost]
  · rw [List.append_assoc,
        getField_append_of_none _ (servicePayloadBase_no_group_id s)]
    rfl
  · rw [List.append_assoc,
        getField_append_of_none _ (servicePayloadBase_no_group_name s)]
    rcases resolvePolicy_ok_shape tr s pc pF hp with hF | ⟨pid, hF⟩ <;> subst hF <;> rfl

/-- A transport on which service hX does not exist and the group lookup
for "G" answers with a remote-issued ID. -/
def c8tr : Transport := fun _ p _ =>
  if p = "/services/hX" then Except.error "not found"
  else if p = "/service-groups/name/G" then
    Except.ok [("service_group_id", JVal.str "gid-1")]
  else Except.ok []

/-- A service referencing service group "G" by name. -/
def svcG : ServiceConfig := ⟨"hX", "svc-g", true, "", "G", "", [], []⟩

/-- Witness for C8 at the concrete transport `c8tr`. -/
theorem c8_witness :
    (createService c8tr false svcG []).calls =
      (⟨Method.get, "/services/" ++ svcG.hash, []⟩
         :: ([⟨Method.get, "/service-groups/name/" ++ svcG.groupName, []⟩] ++ []))
        ++ [⟨Method.post, "/services",
             servicePayloadBase svcG ++ [("service_group_id", JVal.str "gid-1")] ++ []⟩] ∧
    getField (servicePayloadBase svcG ++ [("service_group_id", JVal.str "gid-1")] ++ [])
      "service_group_id" = some (JVal.str "gid-1") ∧
    getField (servicePayloadBase svcG ++ [("service_group_id", JVal.str "gid-1")] ++ [])
      "group_name" = none :=
  c8_group_id_substitution c8tr false svcG [] "not found"
    [("service_group_id", JVal.str "gid-1")] "gid-1" [] []
    (by decide) rfl rfl rfl rfl

/-! ## C10 -/

/-- C10: when group_name is set, the lookup GET succeeds, but the decoded
response has no string-valued service_group_id, `createService` silently
tolerates the missing field: the group resolution contributes nothing,
the service is still created (no error when the POST succeeds), and the
posted payload carries no service_group_id. -/
theorem c10_missing_group_id_tolerated (tr : Transport) (s : ServiceConfig)
    (led : List CreatedResource) (e : String) (body body₂ : Body)
    (pc : List Call) (pF : Body)
    (hne : s.groupName ≠ "")
    (hex : tr Method.get ("/services/" ++ s.hash) [] = Except.error e)
    (hg : tr Method.get ("/service-groups/name/" ++ s.groupName) [] = Except.ok body)
    (hmiss : getStr body "service_group_id" = none)
    (hp : resolvePolicy tr s = (pc, Except.ok pF))
    (hpost : tr Method.post "/services" (servicePayloadBase s ++ pF) = Except.ok body₂) :
    resolveGroup tr s =
      ([⟨Method.get, "/service-groups/name/" ++ s.groupName, []⟩], Except.ok []) ∧
    (createService tr false s led).err = none ∧
    getField (servicePayloadBase s ++ pF) "service_group_id" = none := by
  have hrg : resolveGroup tr s =
      ([⟨Method.get, "/service-groups/name/" ++ s.groupName, []⟩], Except.ok []) := by
    unfold resolveGroup
    rw [if_neg hne, hg]
    simp only [hmiss]
  refine ⟨hrg, ?_, ?_⟩
  · have hpay : servicePayloadBase s ++ [] ++ pF = servicePayloadBase s ++ pF := by
      rw [List.append_nil]
    simp only [createService, hex, hrg, hp, hpay, hpost]
  · rw [getField_append_of_none _ (servicePayloadBase_no_group_id s)]
    rcases resolvePolicy_ok_shape tr s pc pF hp with hF | ⟨pid, hF⟩ <;> subst hF <;> rfl

/-- A transport on which service hY does not exist and the group lookup
for "GY" answers without any service_group_id field. -/
def c10tr : Transport := fun _ p _ =>
  if p = "/services/hY" then Except.error "not found"
  else if p = "/service-groups/name/GY" then Except.ok [("name", JVal.str "GY")]
  else Except.ok []

/-- A service referencing service group "GY" by name. -/
def svcY : ServiceConfig := ⟨"hY", "svc-y", true, "", "GY", "", [], []⟩

/-- Witness for C10 at the concrete transport `c10tr`. -/
theorem c10_witness :
    resolveGroup c10tr svcY =
      ([⟨Method.get, "/service-groups/name/" ++ svcY.groupName, []⟩], Except.ok []) ∧
    (createService c10tr false svcY []).err = none ∧
    getField (servicePayloadBase svcY ++ []) "service_group_id" = none :=
  c10_missing_group_id_tolerated c10tr svcY [] "not found"
    [("name", JVal.str "GY")] [] [] [] (by decide) rfl rfl rfl rfl rfl

/-! ## C9 -/

theorem resolveGroup_congr (tr tr₂ : Transport) (s : ServiceConfig)
    (hg : tr Method.get ("/service-groups/name/" ++ s.groupName) [] =
          tr₂ Method.get ("/service-groups/name/" ++ s.groupName) []) :
    resolveGroup tr s = resolveGroup tr₂ s := by
  by_cases hne : s.groupName = "" <;> simp [resolveGroup, hne, hg]

theorem resolvePolicy_congr (tr tr₂ : Transport) (s : ServiceConfig)
    (hpl : tr Method.get "/politicas" [] = tr₂ Method.get "/politicas" []) :
    resolvePolicy tr s = resolvePolicy tr₂ s := by
  by_cases hne : s.policyName = "" <;> simp [resolvePolicy, hne, hpl]

/-- C9: when the existence GET of phase 4 fails — for any error at all,
transport failure or any non-2xx status — `createService` behaves
identically for every error value and for both values of skipExisting
(given the same answers to the other calls), and it always proceeds past
the check: at least one further transport call follows the existence GET.
The existence check can never abort the apply. -/
theorem c9_existence_errors_tolerated (tr tr₂ : Transport) (s : ServiceConfig)
    (led : List CreatedResource) (skip skip₂ : Bool) (e e₂ : String)
    (hex : tr Method.get ("/services/" ++ s.hash) [] = Except.error e)
    (hex₂ : tr₂ Method.get ("/services/" ++ s.hash) [] = Except.error e₂)
    (hg : tr Method.get ("/service-groups/name/" ++ s.groupName) [] =
          tr₂ Method.get ("/service-groups/name/" ++ s.groupName) [])
    (hpl : tr Method.get "/politicas" [] = tr₂ Method.get "/politicas" [])
    (hpost : ∀ b, tr Method.post "/services" b = tr₂ Method.post "/services" b) :
    createService tr skip s led = createService tr₂ skip₂ s led ∧
    2 ≤ (createService tr skip s led).calls.length := by
  have hrg : resolveGroup tr s = resolveGroup tr₂ s := resolveGroup_congr tr tr₂ s hg
  have hrp : resolvePolicy tr s = resolvePolicy tr₂ s := resolvePolicy_congr tr tr₂ s hpl
  constructor
  · cases hG : resolveGroup tr₂ s with
    | mk gc g₂ =>
        cases g₂ with
        | error msg => simp only [createService, hex, hex₂, hrg, hG]
        | ok gF =>
            cases hP : resolvePolicy tr₂ s with
            | mk pc p₂ =>
                cases p₂ with
                | error msg => simp only [createService, hex, hex₂, hrg, hrp, hG, hP]
                | ok pF =>
                    have hpt := hpost (servicePayloadBase s ++ gF ++ pF)
                    cases hpost₂ : tr₂ Method.post "/services"
                        (servicePayloadBase s ++ gF ++ pF) <;>
                      (rw [hpost₂] at hpt;
                       simp only [createService, hex, hex₂, hrg, hrp, hG, hP,
                         hpt, hpost₂])
  · cases hG : resolveGroup tr s with
    | mk gc g₂ =>
        cases g₂ with
        | error msg =>
            rw [resolveGroup_error_calls tr s gc msg hG] at hG
            simp [createService, hex, hG]
        | ok gF =>
            cases hP : resolvePolicy tr s with
            | mk pc p₂ =>
                cases p₂ with
                | error msg =>
                    rw [resolvePolicy_error_calls tr s pc msg hP] at hP
                    simp [createService, hex, hG, hP]
                | ok pF =>
                    cases hpost₂ : tr Method.post "/services"
                        (servicePayloadBase s ++ gF ++ pF) <;>
                      (rw [List.append_assoc] at hpost₂;
                       simp [createService, hex, hG, hP, hpost₂]) <;>
                      omega

/-- A transport on which the existence check for h9 fails one way. -/
def tr9a : Transport := fun _ p _ =>
  if p = "/services/h9" then Except.error "connection refused" else Except.ok []

/-- A transport on which the existence check for h9 fails another way. -/
def tr9b : Transport := fun _ p _ =>
  if p = "/services/h9" then Except.error "status 500: oops" else Except.ok []

/-- A plain service with hash h9 and no references. -/
def svc9 : ServiceConfig := ⟨"h9", "svc-9", true, "", "", "", [], []⟩

/-- Witness for C9: the two transports differ in the existence-check
error, the skip flags differ, and the outcomes coincide. -/
theorem c9_witness :
    createService tr9a true svc9 [] = createService tr9b false svc9 [] ∧
    2 ≤ (createService tr9a true svc9 []).calls.length :=
  c9_existence_errors_tolerated tr9a tr9b svc9 [] true false
    "connection refused" "status 500: oops" rfl rfl rfl rfl (fun _ => rfl)

end Certfix
